import Mathlib

/-!
Verification of the conversational core of the Romana Restaurant calling agent
(`src/backend/rag_layer.py` and `src/backend/voice_agent.py`).

The Python source is shallowly embedded:
* the in-memory knowledge base (a JSON-like nested dict) becomes `JValue`;
* pure helpers (`_simple_text_similarity`, `retrieve_relevant_context`,
  `_extract_number_from_text`, the relative branches of `_parse_date`,
  `get_knowledge_base`, `update_knowledge_base`) become Lean functions;
* in-place mutation of `self.knowledge_base` / `self.current_reservation` /
  `conversation_history` becomes explicit state passing;
* exceptions that the source catches are modelled by the value the handler
  returns; fallible external effects (the chat-completion HTTP call, the
  backup file read) are modelled by an explicit outcome argument;
* Python floats are modelled by `ℚ`.
-/

/-! ## Python string helpers -/

/-- Whether `needle` occurs as a contiguous run inside `hay`. -/
def listInfix : List Char → List Char → Bool
  | needle, [] => needle.isEmpty
  | needle, c :: rest => needle.isPrefixOf (c :: rest) || listInfix needle rest

/-- Python `needle in hay` substring test on strings. -/
def pyInStr (needle hay : String) : Bool :=
  listInfix needle.data hay.data

/-- Python `s.lower()` (ASCII; the knowledge-base text has no cased non-ASCII). -/
def pyLower (s : String) : String :=
  ⟨s.data.map Char.toLower⟩

/-- Python `s.strip()`: remove leading and trailing whitespace. -/
def pyStrip (s : String) : String :=
  ⟨((s.data.dropWhile Char.isWhitespace).reverse.dropWhile Char.isWhitespace).reverse⟩

/-- Splits a character list at every separator position, keeping empty pieces;
`acc` holds the current piece reversed. -/
def splitAtPred (p : Char → Bool) : List Char → List Char → List (List Char)
  | [], acc => [acc.reverse]
  | c :: rest, acc =>
    if p c then acc.reverse :: splitAtPred p rest []
    else splitAtPred p rest (c :: acc)

/-- Python `s.split('/')`: split at every slash, keeping empty pieces. -/
def pySplitOnSlash (s : String) : List String :=
  (splitAtPred (fun c => c = '/') s.data []).map (fun cs => ⟨cs⟩)

/-- Python `s.split()`: split on whitespace, dropping empty pieces. -/
def pySplit (s : String) : List String :=
  ((splitAtPred Char.isWhitespace s.data []).map (fun cs => (⟨cs⟩ : String))).filter
    (fun w => w ≠ "")

/-- Python `s.replace(a, b)` for a single-character pattern. -/
def pyReplaceChar (a b : Char) (s : String) : String :=
  ⟨s.data.map (fun c => if c = a then b else c)⟩

/-- Python `sep.join(l)`. -/
def pyJoin (sep : String) : List String → String
  | [] => ""
  | [x] => x
  | x :: y :: rest => x ++ sep ++ pyJoin sep (y :: rest)

/-- Python `text.lower().split()`, the tokenization used by `_simple_text_similarity`. -/
def pyWords (s : String) : List String :=
  pySplit (pyLower s)

/-- Helper for `pyTitle`: carries whether the previous character was alphabetic. -/
def pyTitleAux : Bool → List Char → List Char
  | _, [] => []
  | prevAlpha, c :: rest =>
    (if c.isAlpha then (if prevAlpha then c.toLower else c.toUpper) else c)
      :: pyTitleAux c.isAlpha rest

/-- Python `str.title()` (ASCII): capitalize the first letter of each alphabetic run. -/
def pyTitle (s : String) : String :=
  ⟨pyTitleAux false s.data⟩

/-- Python slice `l[-n:]`.  Note the `-0` quirk: `l[-0:]` is the whole list. -/
def pyTakeLast {α : Type} (n : Nat) (l : List α) : List α :=
  if n = 0 then l else l.drop (l.length - n)

/-- Word characters for the regex `\b` boundary (ASCII `\w`): letters, digits, underscore. -/
def isWordChar (c : Char) : Bool :=
  c.isAlphanum || c == '_'

/-- Value of a digit string, as Python `int()` on a nonempty digit run. -/
def digitsToNat (ds : List Char) : Nat :=
  ds.foldl (fun n c => 10 * n + (c.toNat - 48)) 0

/-! ## Knowledge store (`rag_layer.py`)

`JValue` models the JSON-like values held by `self.knowledge_base`.
The root of the knowledge base is always a Python dict, modelled as a
`List (String × JValue)` of fields in insertion order. -/

/-- A JSON-like Python value: string, number, boolean, list, or dict. -/
inductive JValue where
  | str (s : String)
  | num (q : ℚ)
  | bool (b : Bool)
  | arr (items : List JValue)
  | obj (fields : List (String × JValue))

/-- Python dict read `d[k]` / `k in d`, over fields in insertion order. -/
def assocLookup {β : Type} : List (String × β) → String → Option β
  | [], _ => none
  | (k, v) :: rest, key => if k = key then some v else assocLookup rest key

/-- Python dict write `d[k] = v`: replace in place if the key exists, else append. -/
def assocInsert {β : Type} : List (String × β) → String → β → List (String × β)
  | [], key, v => [(key, v)]
  | (k, w) :: rest, key, v =>
    if k = key then (key, v) :: rest else (k, w) :: assocInsert rest key v

/-- Walk of `get_knowledge_base` (rag_layer.py lines 323-333): follow each path
segment through dict nodes.  A missing key returns the `{}` sentinel; reaching a
non-dict node makes the source raise (`in` on a non-container, or indexing a
string/list with a string key), which the enclosing handler turns into `{}` as
well, so every failing walk yields `JValue.obj []`. -/
def kbWalk : JValue → List String → JValue
  | current, [] => current
  | .obj fields, part :: rest =>
    match assocLookup fields part with
    | some v => kbWalk v rest
    | none => .obj []
  | _, _ :: _ => .obj []

/-- `get_knowledge_base` (rag_layer.py lines 306-337).  The falsy section
(`None` or `""`) returns the whole knowledge base; otherwise the slash-split
path is walked.  No exception escapes: every failure returns `{}`. -/
def get_knowledge_base (kb : List (String × JValue)) (sect : String) : JValue :=
  if sect = "" then .obj kb
  else kbWalk (.obj kb) (pySplitOnSlash sect)

/-- Whether every segment of a path traverses an existing dict key (the walk of
`get_knowledge_base` succeeds without hitting a missing key or non-dict node). -/
def pathExists : JValue → List String → Bool
  | _, [] => true
  | .obj fields, part :: rest =>
    match assocLookup fields part with
    | some v => pathExists v rest
    | none => false
  | _, _ :: _ => false

/-- Navigation of `update_knowledge_base` (rag_layer.py lines 270-287) below the
root: `first` is the current path segment, `rest` the remaining ones.  Missing
intermediate keys are created as `{}`.  At the final segment the data is merged
into an existing dict (when `merge` and both sides are dicts) or assigned.
Reaching a non-dict node raises in the source (caught at lines 302-304);
that is modelled by `none`. -/
def navUpdate : JValue → String → List String → JValue → Bool → Option JValue
  | .obj fields, last, [], newData, merge =>
    if merge then
      match assocLookup fields last, newData with
      | some (.obj existing), .obj nd =>
        some (.obj (assocInsert fields last
          (.obj (nd.foldl (fun acc kv => assocInsert acc kv.1 kv.2) existing))))
      | _, _ => some (.obj (assocInsert fields last newData))
    else some (.obj (assocInsert fields last newData))
  | .obj fields, part, next :: rest, newData, merge =>
    (match assocLookup fields part with
     | some v => navUpdate v next rest newData merge
     | none => navUpdate (.obj []) next rest newData merge).map
      (fun v2 => .obj (assocInsert fields part v2))
  | _, _, _ :: _, _, _ => none
  | _, _, [], _, _ => none

/-- `update_knowledge_base` (rag_layer.py lines 249-304), with the wall-clock
`datetime.now().isoformat()` stamp passed in as `now`.  Returns the success flag
and the resulting knowledge base.  The root-level branch models a dict argument
(the declared parameter type); a non-dict argument raises and yields `False`
with the store unchanged, which also matches the navigation failure case
(mutation never precedes the raise, because a pre-existing non-dict prefix
is reached before any intermediate `{}` is created). -/
def update_knowledge_base (kb : List (String × JValue)) (newData : JValue)
    (sect : String) (merge : Bool) (now : String) : Bool × List (String × JValue) :=
  if sect = "" then
    match newData with
    | .obj nd =>
      let kb1 := nd.foldl (fun acc kv => assocInsert acc kv.1 kv.2) kb
      (true, assocInsert kb1 "last_updated" (.str now))
    | _ => (false, kb)
  else
    match pySplitOnSlash sect with
    | [] => (false, kb)
    | part :: rest =>
      match navUpdate (.obj kb) part rest newData merge with
      | some (.obj kb2) => (true, assocInsert kb2 "last_updated" (.str now))
      | some _ => (false, kb)
      | none => (false, kb)

/-- Validity test of `restore_knowledge_base` (rag_layer.py line 678): the
parsed backup must be a dict containing the key `restaurant_info`. -/
def validBackupData : Option JValue → Bool
  | some (.obj fields) => (assocLookup fields "restaurant_info").isSome
  | _ => false

/-- `restore_knowledge_base` (rag_layer.py lines 657-689).  The file system is
abstracted: `fileExists` models `os.path.exists`, `parsed` the result of
`json.load` (`none` when the file is unreadable or unparseable, which the
source catches at lines 687-689).  Returns the success flag and the resulting
knowledge base. -/
def restore_knowledge_base (kb : List (String × JValue)) (fileExists : Bool)
    (parsed : Option JValue) : Bool × List (String × JValue) :=
  if !fileExists then (false, kb)
  else
    match parsed with
    | none => (false, kb)
    | some (.obj fields) =>
      if (assocLookup fields "restaurant_info").isSome then (true, fields)
      else (false, kb)
    | some _ => (false, kb)

/-! ## Context retriever (`rag_layer.py` lines 339-441) -/

/-- `_simple_text_similarity` (rag_layer.py lines 339-359): Jaccard index of the
two lowercased whitespace-token sets, with `max(union, 1)` as denominator. -/
def simpleTextSimilarity (text1 text2 : String) : ℚ :=
  let words1 := (pyWords text1).dedup
  let words2 := (pyWords text2).dedup
  let inter := (words1.filter (fun w => words2.contains w)).length
  let uni := (words1 ++ words2).dedup.length
  (inter : ℚ) / ((max uni 1 : ℕ) : ℚ)

/-- Renders the numeric literals of the knowledge base the way Python shows the
corresponding floats: integers bare, the two-decimal prices with two digits. -/
def renderNum (q : ℚ) : String :=
  if q.den = 1 then toString q.num
  else
    let whole := q.num / (q.den : Int)
    let rest := (q.num % (q.den : Int)).toNat * 100 / q.den
    toString whole ++ "." ++ (if rest < 10 then "0" ++ toString rest else toString rest)

mutual
/-- Python `repr` of a knowledge-base value (what `f"{item}"` shows for a dict). -/
def pyRepr : JValue → String
  | .str s => "'" ++ s ++ "'"
  | .num q => renderNum q
  | .bool b => if b then "True" else "False"
  | .arr items => "[" ++ pyJoin ", " (pyReprList items) ++ "]"
  | .obj fields => "\x7b" ++ pyJoin ", " (pyReprFields fields) ++ "\x7d"

/-- Renders each list element with `pyRepr`. -/
def pyReprList : List JValue → List String
  | [] => []
  | v :: vs => pyRepr v :: pyReprList vs

/-- Renders each dict entry with `pyRepr`. -/
def pyReprFields : List (String × JValue) → List String
  | [] => []
  | (k, v) :: fs => ("'" ++ k ++ "': " ++ pyRepr v) :: pyReprFields fs
end

/-- Python `str` of a value (what an f-string interpolation shows). -/
def pyStr : JValue → String
  | .str s => s
  | v => pyRepr v

mutual
/-- `json.dumps` of a knowledge-base value with default separators. -/
def jsonDumps : JValue → String
  | .str s => "\"" ++ s ++ "\""
  | .num q => renderNum q
  | .bool b => if b then "true" else "false"
  | .arr items => "[" ++ pyJoin ", " (jsonDumpsList items) ++ "]"
  | .obj fields => "\x7b" ++ pyJoin ", " (jsonDumpsFields fields) ++ "\x7d"

/-- Serializes each list element with `jsonDumps`. -/
def jsonDumpsList : List JValue → List String
  | [] => []
  | v :: vs => jsonDumps v :: jsonDumpsList vs

/-- Serializes each dict entry with `jsonDumps`. -/
def jsonDumpsFields : List (String × JValue) → List String
  | [] => []
  | (k, v) :: fs => ("\"" ++ k ++ "\": " ++ jsonDumps v) :: jsonDumpsFields fs
end

/-- One scored context candidate (`{"text": ..., "score": ...}` in the source). -/
structure ContextPart where
  text : String
  score : ℚ
deriving DecidableEq

/-- Stable insertion into a descending-by-score list: an element moves past
entries with a strictly greater score only, matching the stability of Python
`list.sort(key=..., reverse=True)`. -/
def insertDesc (p : ContextPart) : List ContextPart → List ContextPart
  | [] => [p]
  | q :: rest => if p.score < q.score then q :: insertDesc p rest else p :: q :: rest

/-- Stable sort by score, descending (`context_parts.sort(key=..., reverse=True)`). -/
def sortDesc : List ContextPart → List ContextPart
  | [] => []
  | p :: rest => insertDesc p (sortDesc rest)

/-- Scoring of the sub-entries of a nested dict value of `restaurant_info`
(rag_layer.py lines 388-397): each sub-entry is scored against
`f"{sub_key}: {sub_value}"` and kept when the score beats the threshold OR the
sub-key occurs verbatim in the query, with a `+0.2` bonus in the latter case. -/
def subEntryParts (clean : String) (th : ℚ) (key : String) :
    List (String × JValue) → List ContextPart
  | [] => []
  | sub :: rest =>
    (if simpleTextSimilarity clean (sub.1 ++ ": " ++ pyStr sub.2) > th
        ∨ pyInStr (pyLower sub.1) clean = true then
      [⟨pyTitle (pyReplaceChar '_' ' ' key) ++ " - " ++ pyTitle (pyReplaceChar '_' ' ' sub.1)
          ++ ": " ++ pyStr sub.2,
        simpleTextSimilarity clean (sub.1 ++ ": " ++ pyStr sub.2)
          + (if pyInStr (pyLower sub.1) clean = true then (2 : ℚ)/10 else 0)⟩]
    else []) ++ subEntryParts clean th key rest

/-- Scoring of the items of a list value of `restaurant_info` (rag_layer.py
lines 398-417): dict items are scored against their `json.dumps` text, other
items against their `str` text; the threshold is the only keep condition. -/
def listItemParts (clean : String) (th : ℚ) (key : String) :
    List JValue → List ContextPart
  | [] => []
  | item :: rest =>
    (match item with
     | .obj fields =>
       if simpleTextSimilarity clean (jsonDumps (.obj fields)) > th then
         [⟨pyTitle (pyReplaceChar '_' ' ' key) ++ ": " ++ pyRepr (.obj fields),
           simpleTextSimilarity clean (jsonDumps (.obj fields))⟩]
       else []
     | other =>
       if simpleTextSimilarity clean (pyStr other) > th then
         [⟨pyTitle (pyReplaceChar '_' ' ' key) ++ ": " ++ pyStr other,
           simpleTextSimilarity clean (pyStr other)⟩]
       else []) ++ listItemParts clean th key rest

/-- Scoring of one `restaurant_info` entry (rag_layer.py lines 380-417),
dispatching on the runtime type of the value exactly as the `isinstance`
chain does; `int`/`bool` values match no branch and are skipped. -/
def entryParts (clean : String) (th : ℚ) (key : String) : JValue → List ContextPart
  | .str value =>
    if simpleTextSimilarity clean value > th ∨ pyInStr (pyLower key) clean = true then
      [⟨pyTitle (pyReplaceChar '_' ' ' key) ++ ": " ++ value,
        simpleTextSimilarity clean value
          + (if pyInStr (pyLower key) clean = true then (2 : ℚ)/10 else 0)⟩]
    else []
  | .obj subs => subEntryParts clean th key subs
  | .arr items => listItemParts clean th key items
  | _ => []

/-- Scoring of one FAQ entry (rag_layer.py lines 420-429): the better of the
question and answer similarities, kept over the threshold with a `+0.1` boost.
A malformed entry (not a dict of two strings) raises in the source, which the
handler turns into the error string; that is modelled by `none`. -/
def faqPart (clean : String) (th : ℚ) : JValue → Option (List ContextPart)
  | .obj fields =>
    match assocLookup fields "question", assocLookup fields "answer" with
    | some (.str q), some (.str a) =>
      some (if max (simpleTextSimilarity clean q) (simpleTextSimilarity clean a) > th then
        [⟨"FAQ: " ++ q ++ " - " ++ a,
          max (simpleTextSimilarity clean q) (simpleTextSimilarity clean a) + (1 : ℚ)/10⟩]
      else [])
    | _, _ => none
  | _ => none

/-- Accumulates the candidate parts of every `restaurant_info` entry in
iteration order. -/
def partsOfInfo (clean : String) (th : ℚ) : List (String × JValue) → List ContextPart
  | [] => []
  | e :: rest => entryParts clean th e.1 e.2 ++ partsOfInfo clean th rest

/-- Accumulates the FAQ parts in iteration order; any malformed entry makes the
whole retrieval fail (`none`), as an uncaught lookup there would in the source. -/
def faqPartsOf (clean : String) (th : ℚ) : List JValue → Option (List ContextPart)
  | [] => some []
  | f :: rest =>
    match faqPart clean th f, faqPartsOf clean th rest with
    | some p, some l => some (p ++ l)
    | _, _ => none

/-- The sentinel returned when no entry clears the threshold (rag_layer.py line 437). -/
def noContextMsg : String := "No specific context found for your query."

/-- The string returned when retrieval raises internally (rag_layer.py line 441). -/
def retrieveErrorMsg : String := "Error retrieving context information."

/-- Body of `retrieve_relevant_context` after the two top-level dict reads:
collect the scored parts, sort them descending by score (stably), keep the top
five texts, and join them — or return the sentinel when nothing was kept. -/
def retrieveCore (info : List (String × JValue)) (faqs : List JValue)
    (query : String) (threshold : ℚ) : String :=
  match faqPartsOf (pyStrip (pyLower query)) threshold faqs with
  | none => retrieveErrorMsg
  | some fparts =>
    let top := ((sortDesc (partsOfInfo (pyStrip (pyLower query)) threshold info ++ fparts)).take 5).map
      ContextPart.text
    if top.isEmpty then noContextMsg else pyJoin "\n" top

/-- `retrieve_relevant_context` (rag_layer.py lines 361-441).  The two direct
dict reads `knowledge_base['restaurant_info']` / `knowledge_base['faqs']` raise
on a missing key or unexpected shape, which the handler converts to the error
string. -/
def retrieveRelevantContext (kb : List (String × JValue)) (query : String)
    (threshold : ℚ) : String :=
  match assocLookup kb "restaurant_info", assocLookup kb "faqs" with
  | some (.obj info), some (.arr faqs) => retrieveCore info faqs query threshold
  | _, _ => retrieveErrorMsg

/-- The keys whose verbatim occurrence in the query forces their entry into the
candidate set regardless of the threshold: the key of each string-valued
`restaurant_info` entry (line 383) and the sub-key of each nested-dict entry
(line 393).  List values carry no such bypass. -/
def triggerKeys (info : List (String × JValue)) : List String :=
  info.foldr (fun kv acc =>
    (match kv.2 with
     | .str _ => [kv.1]
     | .obj subs => subs.map Prod.fst
     | _ => []) ++ acc) []

/-! ## The initial knowledge base (`_initialize_knowledge_base`, rag_layer.py lines 137-247) -/

/-- The `hours` dict of `restaurant_info`. -/
def hoursEntries : List (String × JValue) :=
  [("monday", .str "11:00 AM - 10:00 PM"),
   ("tuesday", .str "11:00 AM - 10:00 PM"),
   ("wednesday", .str "11:00 AM - 10:00 PM"),
   ("thursday", .str "11:00 AM - 10:00 PM"),
   ("friday", .str "11:00 AM - 11:00 PM"),
   ("saturday", .str "10:00 AM - 11:00 PM"),
   ("sunday", .str "10:00 AM - 10:00 PM")]

/-- The `popular_dishes` list of `restaurant_info`. -/
def popularDishes : List JValue :=
  [.obj [("name", .str "Spaghetti Carbonara"),
         ("description", .str "Classic carbonara with pancetta, egg, black pepper, and Pecorino Romano"),
         ("price", .num (1699/100)),
         ("allergens", .arr [.str "gluten", .str "dairy", .str "eggs"])],
   .obj [("name", .str "Margherita Pizza"),
         ("description", .str "Traditional pizza with San Marzano tomatoes, fresh mozzarella, and basil"),
         ("price", .num (1499/100)),
         ("allergens", .arr [.str "gluten", .str "dairy"])],
   .obj [("name", .str "Lasagna Bolognese"),
         ("description", .str "Layered pasta with beef ragù, béchamel sauce, and Parmigiano"),
         ("price", .num (1899/100)),
         ("allergens", .arr [.str "gluten", .str "dairy", .str "eggs"])],
   .obj [("name", .str "Tiramisu"),
         ("description", .str "Classic Italian dessert with espresso-soaked ladyfingers and mascarpone"),
         ("price", .num (999/100)),
         ("allergens", .arr [.str "gluten", .str "dairy", .str "eggs"])],
   .obj [("name", .str "Risotto al Funghi"),
         ("description", .str "Creamy arborio rice with wild mushrooms and Parmigiano"),
         ("price", .num (1799/100)),
         ("allergens", .arr [.str "dairy"])]]

/-- The `specials` dict of `restaurant_info`. -/
def specialsEntries : List (String × JValue) :=
  [("monday", .str "20% off all pasta dishes"),
   ("tuesday", .str "Wine pairing special - half-price wine by the glass"),
   ("wednesday", .str "Family meal deal - 4 people eat for $60"),
   ("thursday", .str "Date night package - 3-course meal for two $65"),
   ("friday", .str "Happy hour 4-6 PM - $5 appetizers and drinks")]

/-- The `policies` dict of `restaurant_info`. -/
def policiesEntries : List (String × JValue) :=
  [("reservations", .str "Reservations recommended, especially on weekends"),
   ("cancellations", .str "24-hour cancellation policy"),
   ("dress_code", .str "Business casual"),
   ("parking", .str "Valet available for $10, street parking also available"),
   ("pets", .str "Service animals only"),
   ("payment", .str "We accept all major credit cards, no checks")]

/-- The `dietary_accommodations` dict of `restaurant_info`. -/
def dietaryEntries : List (String × JValue) :=
  [("gluten_free", .bool true),
   ("vegetarian", .bool true),
   ("vegan", .bool true),
   ("dairy_free", .bool true),
   ("nut_free", .bool true)]

/-- The `restaurant_info` dict, fields in source order. -/
def restaurantInfo : List (String × JValue) :=
  [("name", .str "Romana Restaurant"),
   ("cuisine", .str "Italian"),
   ("description", .str "Authentic Italian cuisine serving homemade pasta and wood-fired pizzas"),
   ("location", .str "Toronto, Canada"),
   ("phone", .str "(555) 123-4567"),
   ("email", .str "reservations@romanarestaurant.com"),
   ("website", .str "www.romanarestaurant.com"),
   ("hours", .obj hoursEntries),
   ("popular_dishes", .arr popularDishes),
   ("specials", .obj specialsEntries),
   ("policies", .obj policiesEntries),
   ("dietary_accommodations", .obj dietaryEntries)]

/-- The `faqs` list. -/
def faqsList : List JValue :=
  [.obj [("question", .str "Do you offer gluten-free options?"),
         ("answer", .str "Yes, we have gluten-free pasta and pizza crust available for an additional $2.")],
   .obj [("question", .str "Is there a kids' menu?"),
         ("answer", .str "Yes, we offer a children's menu with smaller portions priced at $9.99, including a drink and dessert.")],
   .obj [("question", .str "Can you accommodate food allergies?"),
         ("answer", .str "Yes, please inform your server of any allergies when ordering. Our kitchen can accommodate most dietary restrictions.")],
   .obj [("question", .str "Do you have outdoor seating?"),
         ("answer", .str "Yes, we have a beautiful patio that's open seasonally, weather permitting.")],
   .obj [("question", .str "Do you take reservations?"),
         ("answer", .str "Yes, we recommend reservations, especially for weekend dining. You can book online or call us at (555) 123-4567.")],
   .obj [("question", .str "Is there a corkage fee?"),
         ("answer", .str "Yes, we allow outside wine with a $25 corkage fee per bottle.")]]

/-- The full initial knowledge base, with the `datetime.now().isoformat()`
timestamp passed in as `now`. -/
def initialKnowledgeBase (now : String) : List (String × JValue) :=
  [("restaurant_info", .obj restaurantInfo),
   ("menu_categories", .arr [.str "Appetizers", .str "Pasta", .str "Pizza",
     .str "Main Courses", .str "Desserts", .str "Beverages"]),
   ("faqs", .arr faqsList),
   ("last_updated", .str now)]

/-! ## Completion client (`generate_response`, rag_layer.py lines 516-625) -/

/-- One conversation turn (`{"role": ..., "content": ...}`). -/
structure Turn where
  role : String
  content : String
deriving DecidableEq

/-- Outcome of the single `requests.post` to the chat-completion endpoint:
an HTTP response (with the extracted `choices[0].message.content`, `none` when
the 200 body is malformed and the extraction raises), a
`requests.exceptions.Timeout`, or any other raised exception. -/
inductive ApiOutcome where
  | response (status : Nat) (extracted : Option String)
  | timeout
  | raised
deriving DecidableEq

/-- Fallback returned on a non-200 response (rag_layer.py line 609). -/
def fallbackMsg : String := "I'm having trouble processing your request. Please try again later."

/-- Message returned on a request timeout (rag_layer.py line 618). -/
def timeoutMsg : String := "Request timed out. The server might be busy."

/-- Message returned when any other exception is caught (rag_layer.py line 625). -/
def genericErrorMsg : String := "I encountered an error. Please try again."

/-- `generate_response` (rag_layer.py lines 516-625), with the external HTTP
call abstracted by `api`.  A `None` history defaults to `[]`.  The message
payload built before the call (enhanced query, retrieved context, system
prompt, truncated history) only shapes the outgoing request — which `api`
abstracts — and never the returned pair, so it is not repeated here.  On a 200
response the user and assistant turns are appended and the history is trimmed
to the last `2 * conversation_memory` turns when longer; on a non-200 response
the user turn and the fallback turn are appended without trimming; on a
timeout or any other exception the history is returned as received. -/
def generateResponse (api : ApiOutcome) (query : String)
    (historyIn : Option (List Turn)) (conversationMemory : Nat) : String × List Turn :=
  let history := historyIn.getD []
  let userMessage : Turn := ⟨"user", query⟩
  match api with
  | .timeout => (timeoutMsg, history)
  | .raised => (genericErrorMsg, history)
  | .response status extracted =>
    if status = 200 then
      match extracted with
      | some content =>
        let h2 := history ++ [userMessage, ⟨"assistant", content⟩]
        (content, if h2.length > conversationMemory * 2
                  then pyTakeLast (conversationMemory * 2) h2 else h2)
      | none => (genericErrorMsg, history)
    else
      (fallbackMsg, history ++ [userMessage, ⟨"assistant", fallbackMsg⟩])

/-! ## Number extraction (`_extract_number_from_text`, voice_agent.py lines 523-544) -/

/-- Scan for the first match of `\b(\d+)\b`: a maximal digit run starting at a
word boundary and not followed by a word character.  `prev` records whether the
previous character was a word character; `run` holds the digits of an open
candidate run in reverse.  A run followed by a letter, digit-adjacent letter or
underscore fails its trailing boundary, exactly as the regex backtracking
does on e.g. `"12a"`. -/
def scanNum : List Char → Bool → Option (List Char) → Option Nat
  | [], _, none => none
  | [], _, some run => some (digitsToNat run.reverse)
  | c :: rest, prev, none =>
    if c.isDigit && !prev then scanNum rest true (some [c])
    else scanNum rest (isWordChar c) none
  | c :: rest, _, some run =>
    if c.isDigit then scanNum rest true (some (c :: run))
    else if isWordChar c then scanNum rest true none
    else some (digitsToNat run.reverse)

/-- The word-to-number lookup table of `_extract_number_from_text`
(voice_agent.py lines 531-536), in insertion order. -/
def wordToNumber : List (String × Nat) :=
  [("one", 1), ("two", 2), ("three", 3), ("four", 4), ("five", 5),
   ("six", 6), ("seven", 7), ("eight", 8), ("nine", 9), ("ten", 10),
   ("eleven", 11), ("twelve", 12), ("thirteen", 13), ("fourteen", 14), ("fifteen", 15),
   ("sixteen", 16), ("seventeen", 17), ("eighteen", 18), ("nineteen", 19), ("twenty", 20)]

/-- `_extract_number_from_text` (voice_agent.py lines 523-544): the digit
pattern `\b(\d+)\b` is tried first; failing that, the first table word that
occurs as a substring of the lowercased text wins. -/
def extract_number_from_text (text : String) : Option Nat :=
  match scanNum text.data false none with
  | some n => some n
  | none => (wordToNumber.find? (fun p => pyInStr p.1 (pyLower text))).map Prod.snd

/-! ## Date parsing (`_parse_date`, voice_agent.py lines 546-607), relative branches -/

/-- The weekday table of `_parse_date` (voice_agent.py lines 560-561),
Monday = 0 as in Python `date.weekday()`. -/
def weekdayTable : List (String × Nat) :=
  [("monday", 0), ("tuesday", 1), ("wednesday", 2), ("thursday", 3),
   ("friday", 4), ("saturday", 5), ("sunday", 6)]

/-- The relative branches of `_parse_date` (voice_agent.py lines 548-576),
returning the offset in days from today: the `today`/`tomorrow`/`day after
tomorrow` substring checks, then the first matching weekday name with
`days_until = (day_num - today_weekday) % 7`, `+7` when `"next"` occurs, and
the roll to `7` when the offset is `0` without `"today"`.  `todayWeekday` is
`datetime.now().date().weekday()`.  `none` marks fall-through to the absolute
formats (ISO `YYYY-MM-DD` and `Month Day`, lines 578-607), which involve no
relative offset and are outside the claims settled here. -/
def parseDateRel (todayWeekday : Nat) (dateStrIn : String) : Option Int :=
  let dateStr := pyLower dateStrIn
  if pyInStr "today" dateStr then some 0
  else if pyInStr "tomorrow" dateStr then some 1
  else if pyInStr "day after tomorrow" dateStr then some 2
  else
    match weekdayTable.find? (fun p => pyInStr p.1 dateStr) with
    | some p =>
      let daysUntil : Int := ((p.2 : Int) - (todayWeekday : Int)) % 7
      let d1 := if pyInStr "next" dateStr then daysUntil + 7 else daysUntil
      some (if d1 = 0 ∧ pyInStr "today" dateStr = false then 7 else d1)
    | none => none

/-! ## Reservation flow (`_handle_reservation_flow`, voice_agent.py lines 230-339) -/

/-- A collected slot value: `party_size` is stored as an int, the other slots
as strings (the date and time slots hold the `strftime`-formatted text). -/
inductive SlotVal where
  | num (n : Nat)
  | txt (s : String)
deriving DecidableEq

/-- The mutable `self.current_reservation` record: the terminal flag, the
current step name, and the collected slot values in insertion order. -/
structure Reservation where
  completed : Bool
  step : String
  data : List (String × SlotVal)
deriving DecidableEq

/-- Result of one `_handle_reservation_flow` call: the updated session, the
response text, the conversation history and the persistent reservations list
(`ok`); the implicit `None` return on an unknown step name (`fellThrough`);
or a `KeyError` escaping from the summary f-string when a slot is missing
(`keyError`).  The audio by-product of `text_to_speech` is external I/O and
not modelled. -/
inductive FlowResult where
  | ok (state : Reservation) (response : String) (history : List Turn)
      (reservations : List (List (String × SlotVal)))
  | fellThrough
  | keyError
deriving DecidableEq

/-- The affirmative test of the confirm step (voice_agent.py line 323):
`"yes"`, `"correct"` or `"right"` occurs in the lowercased reply. -/
def isAffirmative (query : String) : Bool :=
  pyInStr "yes" (pyLower query) || pyInStr "correct" (pyLower query)
    || pyInStr "right" (pyLower query)

/-- How an f-string shows a slot value. -/
def renderSlot : SlotVal → String
  | .num n => toString n
  | .txt s => s

/-- The confirmation summary (voice_agent.py lines 304-313); `none` models the
`KeyError` raised when a required slot is absent from `data`. -/
def reservationSummary (data : List (String × SlotVal)) : Option String :=
  match assocLookup data "name", assocLookup data "phone",
        assocLookup data "party_size", assocLookup data "date",
        assocLookup data "time" with
  | some nm, some ph, some ps, some dt, some tm =>
    some ("Let me confirm your reservation:\nName: " ++ renderSlot nm
      ++ "\nPhone: " ++ renderSlot ph
      ++ "\nParty Size: " ++ renderSlot ps
      ++ "\nDate: " ++ renderSlot dt
      ++ "\nTime: " ++ renderSlot tm
      ++ "\n\nIs this information correct? Please say yes or no.")
  | _, _, _, _, _ => none

/-- Re-prompt of the `party_size` step (voice_agent.py line 247). -/
def partySizeRepromptMsg : String :=
  "I need to know how many people will be dining. Please say just a number, like 'four' or 'six'."

/-- Rejection of a past date (voice_agent.py line 255). -/
def pastDateMsg : String :=
  "I'm sorry, we can't make reservations for dates in the past. Please choose a future date."

/-- Re-prompt of the `date` step (voice_agent.py line 268). -/
def dateRepromptMsg : String :=
  "I couldn't understand that date. Please say something like 'tomorrow', 'this Friday', or 'May 20th'."

/-- Question asked after a date is accepted (voice_agent.py line 262). -/
def timeQuestionMsg : String :=
  "What time would you like to reserve? Our hours are 11AM to 10PM."

/-- Re-prompt of the `time` step (voice_agent.py line 284). -/
def timeRepromptMsg : String :=
  "Please tell me a valid time between 11AM and 10PM, like 'seven thirty PM' or '12:45 PM'."

/-- Question asked after a time is accepted (voice_agent.py line 278). -/
def nameQuestionMsg : String :=
  "Perfect! What name should I put the reservation under?"

/-- Question asked after the name is stored (voice_agent.py line 292). -/
def phoneQuestionMsg : String :=
  "Thank you. Could I also have a contact phone number in case we need to reach you?"

/-- Re-prompt of the `phone` step (voice_agent.py line 318). -/
def phoneRepromptMsg : String :=
  "I need a phone number with digits. Please provide a valid phone number."

/-- Completion message of the confirm step (voice_agent.py lines 328-331). -/
def confirmedMsg : String :=
  "Your reservation is confirmed! We look forward to serving you at Romana Restaurant. Do you have any special requests or dietary restrictions we should know about?"

/-- Restart message of the confirm-negative branch (voice_agent.py line 337). -/
def startOverMsg : String :=
  "Let's start over. How many people will be dining with us?"

/-- `_handle_reservation_flow` (voice_agent.py lines 230-339), one user turn.
The two parser calls made inside the `date` and `time` steps are abstracted by
their outcomes: `dateOutcome` is `self._parse_date(query)` as the pair of the
parsed day (as a day count comparable with `today`, which stands for
`datetime.now().date()`) and its `"%Y-%m-%d"` rendering, `none` when the parse
raises; `timeOutcome` is the `"%I:%M %p"` rendering of `self._parse_time(query)`,
`none` when it raises.  Every theorem below quantifies over these outcomes, so
nothing proved depends on how the parsers behave on a given string.
Branches that re-prompt return without touching the history (source lines
246-249, 255-257, 267-270, 283-286, 317-320, 335-339); successful transitions
append the assistant turn. -/
def handleReservationFlow (res : Reservation) (query : String)
    (dateOutcome : Option (Int × String)) (timeOutcome : Option String)
    (today : Int) (history : List Turn)
    (reservations : List (List (String × SlotVal))) : FlowResult :=
  if res.step = "party_size" then
    match extract_number_from_text query with
    | some n =>
      if n > 0 then
        let resp := "Great! We'll reserve for " ++ toString n
          ++ " people. What date would you like to dine with us? You can say tomorrow, Friday, or a specific date."
        .ok { res with data := assocInsert res.data "party_size" (.num n), step := "date" }
          resp (history ++ [⟨"assistant", resp⟩]) reservations
      else .ok res partySizeRepromptMsg history reservations
    | none => .ok res partySizeRepromptMsg history reservations
  else if res.step = "date" then
    match dateOutcome with
    | none => .ok res dateRepromptMsg history reservations
    | some (d, fmt) =>
      if d < today then .ok res pastDateMsg history reservations
      else
        .ok { res with data := assocInsert res.data "date" (.txt fmt), step := "time" }
          timeQuestionMsg (history ++ [⟨"assistant", timeQuestionMsg⟩]) reservations
  else if res.step = "time" then
    match timeOutcome with
    | none => .ok res timeRepromptMsg history reservations
    | some fmt =>
      .ok { res with data := assocInsert res.data "time" (.txt fmt), step := "name" }
        nameQuestionMsg (history ++ [⟨"assistant", nameQuestionMsg⟩]) reservations
  else if res.step = "name" then
    .ok { res with data := assocInsert res.data "name" (.txt query), step := "phone" }
      phoneQuestionMsg (history ++ [⟨"assistant", phoneQuestionMsg⟩]) reservations
  else if res.step = "phone" then
    if query.data.any Char.isDigit then
      let data2 := assocInsert res.data "phone" (.txt query)
      match reservationSummary data2 with
      | some resp =>
        .ok { res with data := data2, step := "confirm" }
          resp (history ++ [⟨"assistant", resp⟩]) reservations
      | none => .keyError
    else .ok res phoneRepromptMsg history reservations
  else if res.step = "confirm" then
    if isAffirmative query then
      .ok { res with completed := true } confirmedMsg
        (history ++ [⟨"assistant", confirmedMsg⟩]) (reservations ++ [res.data])
    else
      .ok { res with step := "party_size" } startOverMsg history reservations
  else .fellThrough

/-- Position of a step name in the fixed reservation sequence. -/
def stepIndex : String → Nat
  | "party_size" => 0
  | "date" => 1
  | "time" => 2
  | "name" => 3
  | "phone" => 4
  | "confirm" => 5
  | _ => 6

/-! ## Lemmas about the association-list dictionary -/

theorem assocLookup_insert_self {β : Type} (l : List (String × β)) (k : String) (v : β) :
    assocLookup (assocInsert l k v) k = some v := by
  induction l with
  | nil => simp [assocInsert, assocLookup]
  | cons e rest ih =>
    obtain ⟨k1, v1⟩ := e
    by_cases h : k1 = k
    · simp [assocInsert, h, assocLookup]
    · simp [assocInsert, h, assocLookup, ih]

theorem assocLookup_insert_ne {β : Type} (l : List (String × β)) (k k2 : String) (v : β)
    (h : k2 ≠ k) : assocLookup (assocInsert l k v) k2 = assocLookup l k2 := by
  induction l with
  | nil => simp [assocInsert, assocLookup, Ne.symm h]
  | cons e rest ih =>
    obtain ⟨k1, v1⟩ := e
    by_cases h1 : k1 = k
    · subst h1
      simp [assocInsert, assocLookup, Ne.symm h]
    · simp [assocInsert, h1, assocLookup, ih]

theorem kbWalk_obj_cons (fields : List (String × JValue)) (p : String) (rest : List String) :
    kbWalk (.obj fields) (p :: rest)
      = match assocLookup fields p with
        | some v => kbWalk v rest
        | none => .obj [] := rfl

theorem pathExists_obj_cons (fields : List (String × JValue)) (p : String) (rest : List String) :
    pathExists (.obj fields) (p :: rest)
      = match assocLookup fields p with
        | some v => pathExists v rest
        | none => false := rfl

theorem kbWalk_nil (current : JValue) : kbWalk current [] = current := by
  cases current <;> rfl

theorem kbWalk_not_exists : ∀ (parts : List String) (current : JValue),
    pathExists current parts = false → kbWalk current parts = .obj [] := by
  intro parts
  induction parts with
  | nil => intro current h; simp [pathExists] at h
  | cons p rest ih =>
    intro current h
    cases current with
    | obj fields =>
      rw [kbWalk_obj_cons]
      rw [pathExists_obj_cons] at h
      cases hll : assocLookup fields p with
      | none => simp
      | some w =>
        rw [hll] at h
        simp [ih w h]
    | str s => rfl
    | num q => rfl
    | bool b => rfl
    | arr items => rfl

theorem navUpdate_kbWalk (v : JValue) : ∀ (rest : List String) (current : JValue) (p : String),
    pathExists current (p :: rest) = true →
    ∃ fields2, navUpdate current p rest v false = some (.obj fields2) ∧
      kbWalk (.obj fields2) (p :: rest) = v := by
  intro rest
  induction rest with
  | nil =>
    intro current p h
    cases current with
    | obj fields =>
      refine ⟨assocInsert fields p v, rfl, ?_⟩
      rw [kbWalk_obj_cons, assocLookup_insert_self]
      exact kbWalk_nil v
    | str s => simp [pathExists] at h
    | num q => simp [pathExists] at h
    | bool b => simp [pathExists] at h
    | arr items => simp [pathExists] at h
  | cons q rs ih =>
    intro current p h
    cases current with
    | obj fields =>
      rw [pathExists_obj_cons] at h
      cases hll : assocLookup fields p with
      | none => rw [hll] at h; simp at h
      | some w =>
        rw [hll] at h
        obtain ⟨g, hg, hwalk⟩ := ih w q h
        refine ⟨assocInsert fields p (.obj g), ?_, ?_⟩
        · have hstep : navUpdate (.obj fields) p (q :: rs) v false
              = (navUpdate w q rs v false).map
                  (fun v2 => JValue.obj (assocInsert fields p v2)) := by
            show (match assocLookup fields p with
                  | some w2 => navUpdate w2 q rs v false
                  | none => navUpdate (.obj []) q rs v false).map
                (fun v2 => JValue.obj (assocInsert fields p v2)) = _
            rw [hll]
          rw [hstep, hg]
          rfl
        · rw [kbWalk_obj_cons, assocLookup_insert_self]
          exact hwalk
    | str s => simp [pathExists] at h
    | num q2 => simp [pathExists] at h
    | bool b => simp [pathExists] at h
    | arr items => simp [pathExists] at h

/-! ## Claim theorems: knowledge store -/

/-- C5: for every existing knowledge-base path (each slash segment an existing
dict key) whose first segment is not the root `last_updated` key, a non-merge
update of `v` at the path followed by a get of the path returns exactly `v`,
and the update reports success. -/
theorem claim_C5_roundtrip (kb : List (String × JValue)) (v : JValue) (sect now : String)
    (p : String) (rest : List String)
    (hsplit : pySplitOnSlash sect = p :: rest)
    (hne : sect ≠ "")
    (hp : p ≠ "last_updated")
    (hex : pathExists (.obj kb) (p :: rest) = true) :
    (update_knowledge_base kb v sect false now).1 = true ∧
      get_knowledge_base (update_knowledge_base kb v sect false now).2 sect = v := by
  obtain ⟨fields2, hnav, hwalk⟩ := navUpdate_kbWalk v rest (.obj kb) p hex
  have hupd : update_knowledge_base kb v sect false now
      = (true, assocInsert fields2 "last_updated" (.str now)) := by
    unfold update_knowledge_base
    rw [if_neg hne, hsplit]
    show (match navUpdate (JValue.obj kb) p rest v false with
          | some (JValue.obj kb2) => (true, assocInsert kb2 "last_updated" (JValue.str now))
          | some _ => (false, kb)
          | none => (false, kb)) = _
    rw [hnav]
  rw [hupd]
  refine ⟨rfl, ?_⟩
  unfold get_knowledge_base
  rw [if_neg hne, hsplit]
  rw [kbWalk_obj_cons, assocLookup_insert_ne _ _ _ _ hp, ← kbWalk_obj_cons]
  exact hwalk

/-- C5 witness: a concrete round trip through `restaurant_info/name`. -/
theorem claim_C5_witness :
    (update_knowledge_base
        [("restaurant_info", JValue.obj [("name", JValue.str "Romana Restaurant")])]
        (JValue.str "Trattoria") "restaurant_info/name" false "ts").1 = true ∧
    get_knowledge_base
        (update_knowledge_base
          [("restaurant_info", JValue.obj [("name", JValue.str "Romana Restaurant")])]
          (JValue.str "Trattoria") "restaurant_info/name" false "ts").2
        "restaurant_info/name" = JValue.str "Trattoria" :=
  claim_C5_roundtrip _ _ _ _ "restaurant_info" ["name"] rfl (by decide) (by decide) rfl

/-- C9: `get_knowledge_base` is total at the store boundary: whenever some
segment of a nonempty path is absent (or the walk reaches a non-dict node), it
returns the empty-dict sentinel `{}`; no exception reaches the caller (the
embedding is a total function whose every failure branch yields `.obj []`). -/
theorem claim_C9_missing (kb : List (String × JValue)) (sect : String)
    (h1 : sect ≠ "") (h2 : pathExists (.obj kb) (pySplitOnSlash sect) = false) :
    get_knowledge_base kb sect = .obj [] := by
  unfold get_knowledge_base
  rw [if_neg h1]
  exact kbWalk_not_exists _ _ h2

/-- C9 witness: reading a missing top-level key. -/
theorem claim_C9_witness :
    get_knowledge_base [("restaurant_info", JValue.obj [])] "menu" = JValue.obj [] :=
  claim_C9_missing _ _ (by decide) rfl

/-- C8: `restore_knowledge_base` rejects — returning `False` with the
in-memory knowledge base untouched — whenever the backup file is missing or its
parsed content is not a dict containing `restaurant_info`. -/
theorem claim_C8_reject (kb : List (String × JValue)) (fileExists : Bool)
    (parsed : Option JValue)
    (h : fileExists = false ∨ validBackupData parsed = false) :
    restore_knowledge_base kb fileExists parsed = (false, kb) := by
  rcases h with h | h
  · subst h; rfl
  · cases fileExists with
    | false => rfl
    | true =>
      cases parsed with
      | none => rfl
      | some d =>
        cases d with
        | obj fields =>
          simp only [validBackupData] at h
          simp [restore_knowledge_base, h]
        | str s => rfl
        | num q => rfl
        | bool b => rfl
        | arr items => rfl

/-- C8 witness: a parseable backup that is not a dict is rejected and the
store is unchanged. -/
theorem claim_C8_witness :
    restore_knowledge_base [("a", JValue.str "b")] true (some (JValue.num 3))
      = (false, [("a", JValue.str "b")]) :=
  claim_C8_reject _ _ _ (Or.inr rfl)

/-! ## Claim theorems: completion client -/

/-- C4: on a non-200 response `generate_response` returns exactly the fallback
string and the history with both the user turn and the fallback assistant turn
appended; the embedding is total, so no exception reaches the caller. -/
theorem claim_C4_fallback (status : Nat) (extracted : Option String) (query : String)
    (history : List Turn) (mem : Nat) (h : status ≠ 200) :
    generateResponse (.response status extracted) query (some history) mem
      = (fallbackMsg, history ++ [⟨"user", query⟩, ⟨"assistant", fallbackMsg⟩]) := by
  simp [generateResponse, h]

/-- C4 witness: a concrete 500 response. -/
theorem claim_C4_witness :
    generateResponse (.response 500 none) "Hi" (some []) 5
      = (fallbackMsg, [⟨"user", "Hi"⟩, ⟨"assistant", fallbackMsg⟩]) :=
  claim_C4_fallback 500 none "Hi" [] 5 (by decide)

/-- C7: on a timeout `generate_response` returns the fixed timeout message and
exactly the history it was given — no user or assistant turn is appended. -/
theorem claim_C7_timeout (query : String) (history : List Turn) (mem : Nat) :
    generateResponse .timeout query (some history) mem = (timeoutMsg, history) := rfl

/-! ## Claim theorems: number extraction -/

/-- C2 counterexample: the claim asserts `_extract_number_from_text` returns
`None` on `"twenty-one"`, but the word lookup is a substring test and
`"one"` occurs inside `"twenty-one"`, so the call does not return `None`. -/
theorem claim_C2_cex : extract_number_from_text "twenty-one" ≠ none := by decide

/-- C2 amended: `"four"` → 4, `"4"` → 4, `"zero people"` → None, `"twenty"` → 20
(the table ceiling), the digit pattern wins over the word lookup
(`"four 2"` → 2), and `"twenty-one"` → 1 (not None): although `"twenty-one"`
is absent from the lookup table, the table is matched by substring in
insertion order and `"one"` occurs in the text. -/
theorem claim_C2_amended :
    extract_number_from_text "four" = some 4 ∧
    extract_number_from_text "4" = some 4 ∧
    extract_number_from_text "zero people" = none ∧
    extract_number_from_text "twenty" = some 20 ∧
    extract_number_from_text "four 2" = some 2 ∧
    extract_number_from_text "twenty-one" = some 1 := by decide

/-! ## Claim theorems: date parsing -/

/-- C6 counterexample: the claim asserts the prefix `"next"` always adds 7 days
to the bare-weekday resolution, but with today a Wednesday (weekday 2) the bare
`"wednesday"` resolves to 7 days ahead and `"next wednesday"` also resolves to
7 days ahead, not 14. -/
theorem claim_C6_cex :
    parseDateRel 2 "next wednesday" ≠ (parseDateRel 2 "wednesday").map (fun k => k + 7) := by
  decide

/-- C6 amended: with today a Wednesday, `"friday"` resolves 2 days ahead,
`"next friday"` 9 days ahead, and `"wednesday"` 7 days ahead; for every weekday
a bare name equal to today resolves 7 days ahead (never today); and `"next"`
adds 7 days to the pre-roll modular offset `(day - today) % 7` — which equals
the bare resolution plus 7 except when the named day is today's weekday, where
both the bare and the `"next"` forms resolve 7 days ahead. -/
theorem claim_C6_amended :
    parseDateRel 2 "friday" = some 2 ∧
    parseDateRel 2 "next friday" = some 9 ∧
    parseDateRel 2 "wednesday" = some 7 ∧
    (∀ t : Fin 7, ∀ p ∈ weekdayTable, p.2 = t.val → parseDateRel t.val p.1 = some 7) ∧
    (∀ t : Fin 7, ∀ p ∈ weekdayTable,
      parseDateRel t.val ("next " ++ p.1)
        = some ((((p.2 : Int) - (t.val : Int)) % 7) + 7)) := by
  decide

/-- C6 witness: the same-weekday roll and the `"next"` offset at concrete days. -/
theorem claim_C6_witness :
    parseDateRel 0 "monday" = some 7 ∧ parseDateRel 3 "next thursday" = some 7 := by
  constructor
  · exact claim_C6_amended.2.2.2.1 ⟨0, by decide⟩ ("monday", 0) (by decide) rfl
  · have h := claim_C6_amended.2.2.2.2 ⟨3, by decide⟩ ("thursday", 3) (by decide)
    simp only [] at h
    refine h.trans ?_
    decide

/-! ## Claim theorems: reservation flow -/

/-- C1 counterexample: at the `confirm` step a negative reply resets the step
to `party_size` but does NOT clear the collected slot values — the claim that
`data` is cleared is false: the session keeps its nonempty `data` mapping. -/
theorem claim_C1_cex :
    handleReservationFlow
        ⟨false, "confirm", [("party_size", SlotVal.num 4), ("date", SlotVal.txt "2025-01-01")]⟩
        "no" none none 0 [] []
      = .ok ⟨false, "party_size", [("party_size", SlotVal.num 4), ("date", SlotVal.txt "2025-01-01")]⟩
          startOverMsg [] []
    ∧ ([("party_size", SlotVal.num 4), ("date", SlotVal.txt "2025-01-01")]
        : List (String × SlotVal)) ≠ [] := by
  constructor
  · decide
  · decide

/-- C1 amended: at the `confirm` step a negative reply (no affirmative keyword)
resets the step to the first step `party_size` and leaves the session's `data`
mapping unchanged (the slots are only overwritten as the restarted flow
re-collects them — they are not cleared); on every other step the step either
stays (re-prompt) or advances by exactly one position in the fixed sequence,
so the step index is monotone. -/
theorem claim_C1_amended (res : Reservation) (query : String)
    (dateOutcome : Option (Int × String)) (timeOutcome : Option String)
    (today : Int) (history : List Turn) (reservations : List (List (String × SlotVal))) :
    (res.step = "confirm" → isAffirmative query = false →
      handleReservationFlow res query dateOutcome timeOutcome today history reservations
        = .ok { res with step := "party_size" } startOverMsg history reservations) ∧
    (∀ st resp h2 rv, res.step ≠ "confirm" →
      handleReservationFlow res query dateOutcome timeOutcome today history reservations
        = .ok st resp h2 rv →
      stepIndex res.step ≤ stepIndex st.step ∧
        stepIndex st.step ≤ stepIndex res.step + 1) := by
  constructor
  · intro h1 h2
    simp [handleReservationFlow, h1, h2]
  · intro st resp h2 rv hne heq
    unfold handleReservationFlow at heq
    by_cases h0 : res.step = "party_size"
    · rw [h0] at heq
      simp only [String.reduceEq, reduceIte] at heq
      repeat' split at heq
      all_goals ((try cases heq) <;> simp [stepIndex, h0])
    · by_cases hd : res.step = "date"
      · rw [hd] at heq
        simp only [String.reduceEq, reduceIte] at heq
        repeat' split at heq
        all_goals ((try cases heq) <;> simp [stepIndex, hd])
      · by_cases ht : res.step = "time"
        · rw [ht] at heq
          simp only [String.reduceEq, reduceIte] at heq
          repeat' split at heq
          all_goals ((try cases heq) <;> simp [stepIndex, ht])
        · by_cases hm : res.step = "name"
          · rw [hm] at heq
            simp only [String.reduceEq, reduceIte] at heq
            cases heq
            simp [stepIndex, hm]
          · by_cases hp : res.step = "phone"
            · rw [hp] at heq
              simp only [String.reduceEq, reduceIte] at heq
              repeat' split at heq
              all_goals ((try cases heq) <;> simp [stepIndex, hp])
            · rw [if_neg h0, if_neg hd, if_neg ht, if_neg hm, if_neg hp, if_neg hne] at heq
              cases heq

/-- C1 witness: a concrete confirm-negative turn resets to `party_size` with
the collected data retained. -/
theorem claim_C1_witness :
    handleReservationFlow ⟨false, "confirm", [("party_size", SlotVal.num 2)]⟩
        "no thanks" none none 0 [] []
      = .ok ⟨false, "party_size", [("party_size", SlotVal.num 2)]⟩ startOverMsg [] [] :=
  (claim_C1_amended ⟨false, "confirm", [("party_size", SlotVal.num 2)]⟩
    "no thanks" none none 0 [] []).1 rfl (by decide)

/-- C10: every validation-failure re-prompt of the reservation flow — an
unparseable or non-positive party size, an unparseable or past date, an
unparseable time, or a digit-less phone number — returns the re-prompt text
with the conversation history (and the session state) unchanged; only
successful step transitions append an assistant turn. -/
theorem claim_C10_frame (res : Reservation) (query : String)
    (dateOutcome : Option (Int × String)) (timeOutcome : Option String)
    (today : Int) (history : List Turn) (reservations : List (List (String × SlotVal))) :
    (res.step = "party_size" →
      (extract_number_from_text query = none ∨ extract_number_from_text query = some 0) →
      handleReservationFlow res query dateOutcome timeOutcome today history reservations
        = .ok res partySizeRepromptMsg history reservations) ∧
    (res.step = "date" → dateOutcome = none →
      handleReservationFlow res query dateOutcome timeOutcome today history reservations
        = .ok res dateRepromptMsg history reservations) ∧
    (res.step = "date" → ∀ d fmt, dateOutcome = some (d, fmt) → d < today →
      handleReservationFlow res query dateOutcome timeOutcome today history reservations
        = .ok res pastDateMsg history reservations) ∧
    (res.step = "time" → timeOutcome = none →
      handleReservationFlow res query dateOutcome timeOutcome today history reservations
        = .ok res timeRepromptMsg history reservations) ∧
    (res.step = "phone" → query.data.any Char.isDigit = false →
      handleReservationFlow res query dateOutcome timeOutcome today history reservations
        = .ok res phoneRepromptMsg history reservations) := by
  refine ⟨?_, ?_, ?_, ?_, ?_⟩
  · intro h1 h2
    rcases h2 with h2 | h2 <;> simp [handleReservationFlow, h1, h2]
  · intro h1 h2
    simp [handleReservationFlow, h1, h2]
  · intro h1 d fmt h2 h3
    simp [handleReservationFlow, h1, h2, h3]
  · intro h1 h2
    simp [handleReservationFlow, h1, h2]
  · intro h1 h2
    simp [handleReservationFlow, h1, h2]

/-- C10 witness: an unparseable party size re-prompts without touching the
one-turn history. -/
theorem claim_C10_witness :
    handleReservationFlow ⟨false, "party_size", []⟩ "hello" none none 0
        [⟨"user", "hello"⟩] []
      = .ok ⟨false, "party_size", []⟩ partySizeRepromptMsg [⟨"user", "hello"⟩] [] :=
  (claim_C10_frame ⟨false, "party_size", []⟩ "hello" none none 0
    [⟨"user", "hello"⟩] []).1 rfl (Or.inl (by decide))

/-! ## Lemmas about the retriever -/

theorem simpleTextSimilarity_le_one (text1 text2 : String) :
    simpleTextSimilarity text1 text2 ≤ 1 := by
  unfold simpleTextSimilarity
  set w1 := (pyWords text1).dedup with hw1
  set w2 := (pyWords text2).dedup with hw2
  have hIU : (w1.filter (fun w => w2.contains w)).length ≤ (w1 ++ w2).dedup.length := by
    have h1 : (w1.filter (fun w => w2.contains w)).length ≤ w1.length :=
      List.length_filter_le _ _
    have h2 : w1.length ≤ (w1 ++ w2).dedup.length := by
      have hnd : w1.Nodup := List.nodup_dedup _
      have hcard1 : w1.toFinset.card = w1.length := List.toFinset_card_of_nodup hnd
      have hcard2 : (w1 ++ w2).toFinset.card = (w1 ++ w2).dedup.length :=
        List.card_toFinset _
      have hsub : w1.toFinset ⊆ (w1 ++ w2).toFinset := by
        intro x hx
        rw [List.mem_toFinset] at hx ⊢
        exact List.mem_append_left _ hx
      calc w1.length = w1.toFinset.card := hcard1.symm
        _ ≤ (w1 ++ w2).toFinset.card := Finset.card_le_card hsub
        _ = (w1 ++ w2).dedup.length := hcard2
    exact h1.trans h2
  have hpos : (0 : ℚ) < ((max (w1 ++ w2).dedup.length 1 : ℕ) : ℚ) := by
    have : 1 ≤ max (w1 ++ w2).dedup.length 1 := le_max_right _ _
    exact_mod_cast Nat.lt_of_lt_of_le Nat.zero_lt_one this
  rw [div_le_one hpos]
  have : (w1.filter (fun w => w2.contains w)).length ≤ max (w1 ++ w2).dedup.length 1 :=
    hIU.trans (le_max_left _ _)
  exact_mod_cast this

theorem sim_not_gt (text1 text2 : String) {th : ℚ} (hth : 1 < th) :
    ¬ simpleTextSimilarity text1 text2 > th := by
  intro hgt
  have h := simpleTextSimilarity_le_one text1 text2
  linarith

theorem entryParts_str_skip (clean key value : String) {th : ℚ} (hth : 1 < th)
    (hkey : pyInStr (pyLower key) clean = false) :
    entryParts clean th key (.str value) = [] := by
  have hcond : ¬ (simpleTextSimilarity clean value > th
      ∨ pyInStr (pyLower key) clean = true) := by
    rintro (hgt | hin)
    · exact sim_not_gt clean value hth hgt
    · rw [hkey] at hin
      exact Bool.false_ne_true hin
  show (if simpleTextSimilarity clean value > th ∨ pyInStr (pyLower key) clean = true then
      [ContextPart.mk (pyTitle (pyReplaceChar '_' ' ' key) ++ ": " ++ value)
        (simpleTextSimilarity clean value
          + (if pyInStr (pyLower key) clean = true then (2 : ℚ)/10 else 0))]
    else []) = []
  exact if_neg hcond

theorem subEntryParts_skip (clean key : String) {th : ℚ} (hth : 1 < th) :
    ∀ subs : List (String × JValue),
      (∀ k ∈ subs.map Prod.fst, pyInStr (pyLower k) clean = false) →
      subEntryParts clean th key subs = [] := by
  intro subs
  induction subs with
  | nil => intro _; rfl
  | cons sub rest ih =>
    intro h
    have hcond : ¬ (simpleTextSimilarity clean (sub.1 ++ ": " ++ pyStr sub.2) > th
        ∨ pyInStr (pyLower sub.1) clean = true) := by
      rintro (hgt | hin)
      · exact sim_not_gt _ _ hth hgt
      · rw [h sub.1 (by simp)] at hin
        exact Bool.false_ne_true hin
    unfold subEntryParts
    rw [if_neg hcond, ih (fun k hk => h k (by simp [hk]))]
    rfl

theorem entryParts_obj_skip (clean key : String) (subs : List (String × JValue))
    {th : ℚ} (hth : 1 < th)
    (hsubs : ∀ k ∈ subs.map Prod.fst, pyInStr (pyLower k) clean = false) :
    entryParts clean th key (.obj subs) = [] :=
  subEntryParts_skip clean key hth subs hsubs

theorem listItemParts_skip (clean key : String) {th : ℚ} (hth : 1 < th) :
    ∀ items : List JValue, listItemParts clean th key items = [] := by
  intro items
  induction items with
  | nil => rfl
  | cons item rest ih =>
    unfold listItemParts
    rw [ih, List.append_nil]
    split <;> exact if_neg (sim_not_gt _ _ hth)

theorem entryParts_arr_skip (clean key : String) (items : List JValue)
    {th : ℚ} (hth : 1 < th) :
    entryParts clean th key (.arr items) = [] :=
  listItemParts_skip clean key hth items

theorem faqPart_str_skip (clean q a : String) {th : ℚ} (hth : 1 < th) :
    faqPart clean th (.obj [("question", .str q), ("answer", .str a)]) = some [] := by
  have hmax : ¬ (max (simpleTextSimilarity clean q) (simpleTextSimilarity clean a) > th) := by
    have hq := simpleTextSimilarity_le_one clean q
    have ha := simpleTextSimilarity_le_one clean a
    have hle : max (simpleTextSimilarity clean q) (simpleTextSimilarity clean a) ≤ 1 :=
      max_le hq ha
    intro hgt
    linarith
  simp only [faqPart, assocLookup, String.reduceEq, reduceIte]
  rw [if_neg hmax]

theorem partsOfInfo_all_skip (clean : String) (th : ℚ) :
    ∀ info : List (String × JValue),
      (∀ e ∈ info, entryParts clean th e.1 e.2 = []) →
      partsOfInfo clean th info = [] := by
  intro info
  induction info with
  | nil => intro _; rfl
  | cons e rest ih =>
    intro h
    unfold partsOfInfo
    rw [h e (by simp), ih (fun x hx => h x (by simp [hx]))]
    rfl

theorem faqPartsOf_all_skip (clean : String) (th : ℚ) :
    ∀ faqs : List JValue,
      (∀ f ∈ faqs, faqPart clean th f = some []) →
      faqPartsOf clean th faqs = some [] := by
  intro faqs
  induction faqs with
  | nil => intro _; rfl
  | cons f rest ih =>
    intro h
    unfold faqPartsOf
    rw [h f (by simp), ih (fun x hx => h x (by simp [hx]))]
    rfl

/-! ## Claim theorems: context retriever -/

section RatReduction

attribute [local semireducible] Rat.add Rat.mul Rat.inv

/-- C3 counterexample: with threshold 1.1 the query `"name"` does NOT return
the no-context sentinel — the entry keep-condition is
`similarity > threshold OR key in query`, so the `name` entry enters the
result regardless of the unattainable threshold. -/
theorem claim_C3_cex :
    retrieveRelevantContext (initialKnowledgeBase "ts") "name" (11/10)
        = "Name: Romana Restaurant"
    ∧ ("Name: Romana Restaurant" : String) ≠ noContextMsg := by
  have h11 : (1 : ℚ) < 11/10 := by norm_num
  constructor
  · have hcore : retrieveRelevantContext (initialKnowledgeBase "ts") "name" (11/10)
        = retrieveCore restaurantInfo faqsList "name" (11/10) := rfl
    have hfaq : faqPartsOf (pyStrip (pyLower "name")) (11/10) faqsList = some [] := by
      apply faqPartsOf_all_skip
      intro f hf
      simp only [faqsList, List.mem_cons, List.not_mem_nil, or_false] at hf
      rcases hf with rfl | rfl | rfl | rfl | rfl | rfl <;> exact faqPart_str_skip _ _ _ h11
    have hname : entryParts (pyStrip (pyLower "name")) (11/10) "name"
        (.str "Romana Restaurant")
        = [ContextPart.mk "Name: Romana Restaurant" ((1 : ℚ)/5)] := by decide
    have hinfo : partsOfInfo (pyStrip (pyLower "name")) (11/10) restaurantInfo
        = [ContextPart.mk "Name: Romana Restaurant" ((1 : ℚ)/5)] := by
      simp only [restaurantInfo, partsOfInfo]
      rw [hname,
        entryParts_str_skip (pyStrip (pyLower "name")) "cuisine" "Italian" h11 (by decide),
        entryParts_str_skip (pyStrip (pyLower "name")) "description"
          "Authentic Italian cuisine serving homemade pasta and wood-fired pizzas" h11
          (by decide),
        entryParts_str_skip (pyStrip (pyLower "name")) "location" "Toronto, Canada" h11
          (by decide),
        entryParts_str_skip (pyStrip (pyLower "name")) "phone" "(555) 123-4567" h11
          (by decide),
        entryParts_str_skip (pyStrip (pyLower "name")) "email"
          "reservations@romanarestaurant.com" h11 (by decide),
        entryParts_str_skip (pyStrip (pyLower "name")) "website"
          "www.romanarestaurant.com" h11 (by decide),
        entryParts_obj_skip (pyStrip (pyLower "name")) "hours" hoursEntries h11 (by decide),
        entryParts_arr_skip (pyStrip (pyLower "name")) "popular_dishes" popularDishes h11,
        entryParts_obj_skip (pyStrip (pyLower "name")) "specials" specialsEntries h11
          (by decide),
        entryParts_obj_skip (pyStrip (pyLower "name")) "policies" policiesEntries h11
          (by decide),
        entryParts_obj_skip (pyStrip (pyLower "name")) "dietary_accommodations"
          dietaryEntries h11 (by decide)]
      rfl
    rw [hcore]
    unfold retrieveCore
    rw [hfaq, hinfo]
    rfl
  · decide

/-- C3 amended: with threshold 1.1 (above the maximum attainable similarity,
which never exceeds 1), the retriever returns the no-context sentinel for every
query that contains none of the trigger keys (the key of a string-valued
`restaurant_info` entry or a sub-key of a nested-dict entry) as a substring.
A query containing such a key bypasses the threshold via the or-condition of
lines 383/393, as the counterexample shows. -/
theorem claim_C3_amended (now query : String)
    (H : ∀ k ∈ triggerKeys restaurantInfo,
      pyInStr (pyLower k) (pyStrip (pyLower query)) = false) :
    retrieveRelevantContext (initialKnowledgeBase now) query (11/10) = noContextMsg := by
  have h11 : (1 : ℚ) < 11/10 := by norm_num
  have hcore : retrieveRelevantContext (initialKnowledgeBase now) query (11/10)
      = retrieveCore restaurantInfo faqsList query (11/10) := rfl
  have hfaq : faqPartsOf (pyStrip (pyLower query)) (11/10) faqsList = some [] := by
    apply faqPartsOf_all_skip
    intro f hf
    simp only [faqsList, List.mem_cons, List.not_mem_nil, or_false] at hf
    rcases hf with rfl | rfl | rfl | rfl | rfl | rfl <;> exact faqPart_str_skip _ _ _ h11
  have hhours : ∀ k ∈ hoursEntries.map Prod.fst, k ∈ triggerKeys restaurantInfo := by decide
  have hspecials : ∀ k ∈ specialsEntries.map Prod.fst, k ∈ triggerKeys restaurantInfo := by
    decide
  have hpolicies : ∀ k ∈ policiesEntries.map Prod.fst, k ∈ triggerKeys restaurantInfo := by
    decide
  have hdietary : ∀ k ∈ dietaryEntries.map Prod.fst, k ∈ triggerKeys restaurantInfo := by
    decide
  have hinfo : partsOfInfo (pyStrip (pyLower query)) (11/10) restaurantInfo = [] := by
    apply partsOfInfo_all_skip
    intro e he
    simp only [restaurantInfo, List.mem_cons, List.not_mem_nil, or_false] at he
    rcases he with rfl | rfl | rfl | rfl | rfl | rfl | rfl | rfl | rfl | rfl | rfl | rfl
    · exact entryParts_str_skip _ _ _ h11 (H "name" (by decide))
    · exact entryParts_str_skip _ _ _ h11 (H "cuisine" (by decide))
    · exact entryParts_str_skip _ _ _ h11 (H "description" (by decide))
    · exact entryParts_str_skip _ _ _ h11 (H "location" (by decide))
    · exact entryParts_str_skip _ _ _ h11 (H "phone" (by decide))
    · exact entryParts_str_skip _ _ _ h11 (H "email" (by decide))
    · exact entryParts_str_skip _ _ _ h11 (H "website" (by decide))
    · exact entryParts_obj_skip _ _ _ h11 (fun k hk => H k (hhours k hk))
    · exact entryParts_arr_skip _ _ _ h11
    · exact entryParts_obj_skip _ _ _ h11 (fun k hk => H k (hspecials k hk))
    · exact entryParts_obj_skip _ _ _ h11 (fun k hk => H k (hpolicies k hk))
    · exact entryParts_obj_skip _ _ _ h11 (fun k hk => H k (hdietary k hk))
  rw [hcore]
  unfold retrieveCore
  rw [hfaq, hinfo]
  rfl

/-- C3 witness: a query containing no trigger key yields the sentinel at
threshold 1.1. -/
theorem claim_C3_witness :
    (∀ k ∈ triggerKeys restaurantInfo,
      pyInStr (pyLower k) (pyStrip (pyLower "hello there")) = false) ∧
    retrieveRelevantContext (initialKnowledgeBase "ts") "hello there" (11/10)
      = noContextMsg :=
  ⟨by decide, claim_C3_amended "ts" "hello there" (by decide)⟩

end RatReduction
